import Mathlib

/-!
Verification of `kubernetes.go` from anduintransaction/anduin-kube-deploy.

The file is a thin adaptation layer over the Kubernetes client API: it loads a
cluster client from kubeconfig, decodes kind, metadata name and metadata
namespace from YAML manifests, and dispatches existence-check/create/delete calls across six
hardcoded resource kinds, with cascade deletion for deployments (replica sets) and
jobs (pods).

Shallow embedding: the live cluster is modelled as an oracle environment `KubeEnv`
assigning a result to every endpoint the code calls.  Each embedded function
returns its Go result together with the ordered list of API calls it issued
(`List APICall`), built by following the control flow of the source statement by
statement.  Library code that is not part of the repository (the error type
`errors.StatusError`, `labels.Parse`, `yaml.Unmarshal`, `clientcmd` resolution)
is abstracted as oracle fields or modelled from the spec where the spec pins its
behaviour down; the control flow of the repository itself is translated verbatim.
-/

/-- Errors flowing through the layer.  `statusError code msg` models a structured
`*errors.StatusError` whose `Status().Code` is `code` (the `msg` component stands
for the rest of the status payload); `otherError` models every other error shape
(malformed or unknown).  `unsupportedResource` models the repository error value
`UnsupportedResource(kind)` (its constructor lives outside
`kubernetes.go`; only the kind argument matters here). -/
inductive KubeError where
  | statusError (code : Nat) (msg : String)
  | otherError (msg : String)
  | unsupportedResource (kind : String)
  deriving DecidableEq, Repr

/-- One API call issued against the cluster, as recorded in a trace.  Delete
calls record the grace period passed in their `DeleteOptions`; list calls record
the label selector string they were given. -/
inductive APICall where
  | getNamespace (ns : String)
  | createNamespaceCall (ns : String)
  | getDeployment (ns name : String)
  | getService (ns name : String)
  | getJob (ns name : String)
  | getPVC (ns name : String)
  | getConfigMap (ns name : String)
  | getPetSet (ns name : String)
  | createDeployment (ns : String)
  | createService (ns : String)
  | createJob (ns : String)
  | createPVC (ns : String)
  | createConfigMap (ns : String)
  | createPetSet (ns : String)
  | deleteDeployment (ns name : String) (grace : Nat)
  | deleteService (ns name : String) (grace : Nat)
  | deleteJob (ns name : String) (grace : Nat)
  | deletePVC (ns name : String) (grace : Nat)
  | deleteConfigMap (ns name : String) (grace : Nat)
  | deletePetSet (ns name : String) (grace : Nat)
  | deleteReplicaSet (ns name : String) (grace : Nat)
  | deletePod (ns name : String) (grace : Nat)
  | listReplicaSets (ns selector : String)
  | listPods (ns selector : String)
  deriving DecidableEq, Repr

/-- The cluster as an oracle: for every endpoint `kubernetes.go` calls, the
response the cluster would give.  `none` means the call succeeds; `some e` means
it fails with `e`.  List endpoints return the names of the items listed, or an
error.  `labelsParse` abstracts the pure library function `labels.Parse`
(client-go code, not part of this repository): it yields the parsed selector in
string form, or a parse error. -/
structure KubeEnv where
  namespacesGet : String → Option KubeError
  namespacesCreate : String → Option KubeError
  deploymentsGet : String → String → Option KubeError
  servicesGet : String → String → Option KubeError
  jobsGet : String → String → Option KubeError
  persistentVolumeClaimsGet : String → String → Option KubeError
  configMapsGet : String → String → Option KubeError
  petSetsGet : String → String → Option KubeError
  deploymentsCreate : String → Option KubeError
  servicesCreate : String → Option KubeError
  jobsCreate : String → Option KubeError
  persistentVolumeClaimsCreate : String → Option KubeError
  configMapsCreate : String → Option KubeError
  petSetsCreate : String → Option KubeError
  deploymentsDelete : String → String → Option KubeError
  servicesDelete : String → String → Option KubeError
  jobsDelete : String → String → Option KubeError
  persistentVolumeClaimsDelete : String → String → Option KubeError
  configMapsDelete : String → String → Option KubeError
  petSetsDelete : String → String → Option KubeError
  replicaSetsDelete : String → String → Option KubeError
  podsDelete : String → String → Option KubeError
  replicaSetsList : String → String → Except KubeError (List String)
  podsList : String → String → Except KubeError (List String)
  labelsParse : String → Except KubeError String

/-- `isResourceNotExist` (kubernetes.go:185-195): a type switch on the error.
A `*errors.StatusError` is "not exist" exactly when its status code is 404;
every other error shape falls to the default arm and is not "not exist". -/
def isResourceNotExist : KubeError → Bool
  | KubeError.statusError code _ => code == 404
  | KubeError.otherError _ => false
  | KubeError.unsupportedResource _ => false

/-- The get endpoint selected by the switch of `checkResourceExist` for a kind:
`some r` with the oracle response for the six recognized kinds, `none` for the
default arm (no endpoint is called there). -/
def recognizedGet (env : KubeEnv) (kind name ns : String) :
    Option (Option KubeError × APICall) :=
  match kind with
  | "deployment" => some (env.deploymentsGet ns name, APICall.getDeployment ns name)
  | "service" => some (env.servicesGet ns name, APICall.getService ns name)
  | "job" => some (env.jobsGet ns name, APICall.getJob ns name)
  | "persistentvolumeclaim" =>
      some (env.persistentVolumeClaimsGet ns name, APICall.getPVC ns name)
  | "configmap" => some (env.configMapsGet ns name, APICall.getConfigMap ns name)
  | "petset" => some (env.petSetsGet ns name, APICall.getPetSet ns name)
  | _ => none

/-- `checkResourceExist` (kubernetes.go:65-90): switch on kind to issue the
typed get (the default arm returns `UnsupportedResource(kind)` before any call);
then `nil` error means `(true, nil)`, a not-exist error means `(false, nil)`,
any other error is returned unchanged as `(false, err)`. -/
def checkResourceExist (env : KubeEnv) (kind name ns : String) :
    (Bool × Option KubeError) × List APICall :=
  match recognizedGet env kind name ns with
  | none => ((false, some (KubeError.unsupportedResource kind)), [])
  | some (err, call) =>
    match err with
    | none => ((true, none), [call])
    | some e =>
      if isResourceNotExist e then ((false, none), [call])
      else ((false, some e), [call])

/-- `createResource` (kubernetes.go:92-111): switch on kind to issue the typed
create (the payload type assertion is outside the model; the oracle keys the
result on the target namespace); the default arm returns `UnsupportedResource(kind)`
with no call issued. -/
def createResource (env : KubeEnv) (kind ns : String) :
    Option KubeError × List APICall :=
  match kind with
  | "deployment" => (env.deploymentsCreate ns, [APICall.createDeployment ns])
  | "service" => (env.servicesCreate ns, [APICall.createService ns])
  | "job" => (env.jobsCreate ns, [APICall.createJob ns])
  | "persistentvolumeclaim" =>
      (env.persistentVolumeClaimsCreate ns, [APICall.createPVC ns])
  | "configmap" => (env.configMapsCreate ns, [APICall.createConfigMap ns])
  | "petset" => (env.petSetsCreate ns, [APICall.createPetSet ns])
  | _ => (some (KubeError.unsupportedResource kind), [])

/-- The `for ... range items` delete loop shared by `destroyDeployment`
(kubernetes.go:151-156) and `destroyJob` (kubernetes.go:176-181): delete each
listed item in order, returning the error of the first failing delete unchanged and
issuing no further calls after it. -/
def deleteEach (del : String → Option KubeError) (mk : String → APICall) :
    List String → Option KubeError × List APICall
  | [] => (none, [])
  | x :: xs =>
    match del x with
    | some e => (some e, [mk x])
    | none =>
      let rest := deleteEach del mk xs
      (rest.1, mk x :: rest.2)

/-- `destroyDeployment` (kubernetes.go:135-158): delete the deployment with zero
grace period; on success parse the selector `name=<name>`; on success list the
replica sets in the ns with that selector; on success delete each listed
replica set with zero grace period.  The first failing step returns its error
unchanged and aborts the rest. -/
def destroyDeployment (env : KubeEnv) (name ns : String) :
    Option KubeError × List APICall :=
  let delCall := APICall.deleteDeployment ns name 0
  match env.deploymentsDelete ns name with
  | some e => (some e, [delCall])
  | none =>
    match env.labelsParse ("name=" ++ name) with
    | Except.error e => (some e, [delCall])
    | Except.ok selector =>
      let listCall := APICall.listReplicaSets ns selector
      match env.replicaSetsList ns selector with
      | Except.error e => (some e, [delCall, listCall])
      | Except.ok items =>
        let loop := deleteEach (fun n => env.replicaSetsDelete ns n)
          (fun n => APICall.deleteReplicaSet ns n 0) items
        (loop.1, delCall :: listCall :: loop.2)

/-- `destroyJob` (kubernetes.go:160-183): delete the job with zero grace period;
on success parse the selector `job-name=<name>`; on success list the pods with
that selector; on success delete each listed pod with zero grace period.  The
first failing step returns its error unchanged and aborts the rest. -/
def destroyJob (env : KubeEnv) (name ns : String) :
    Option KubeError × List APICall :=
  let delCall := APICall.deleteJob ns name 0
  match env.jobsDelete ns name with
  | some e => (some e, [delCall])
  | none =>
    match env.labelsParse ("job-name=" ++ name) with
    | Except.error e => (some e, [delCall])
    | Except.ok selector =>
      let listCall := APICall.listPods ns selector
      match env.podsList ns selector with
      | Except.error e => (some e, [delCall, listCall])
      | Except.ok items =>
        let loop := deleteEach (fun n => env.podsDelete ns n)
          (fun n => APICall.deletePod ns n 0) items
        (loop.1, delCall :: listCall :: loop.2)

/-- `destroyResource` (kubernetes.go:113-133): switch on kind; deployment and
job dispatch to their cascade functions; the four simple kinds issue one typed
delete with `api.NewDeleteOptions(0)` (zero grace period); the default arm
returns `UnsupportedResource(kind)` with no call issued. -/
def destroyResource (env : KubeEnv) (kind name ns : String) :
    Option KubeError × List APICall :=
  match kind with
  | "deployment" => destroyDeployment env name ns
  | "service" =>
      (env.servicesDelete ns name, [APICall.deleteService ns name 0])
  | "job" => destroyJob env name ns
  | "persistentvolumeclaim" =>
      (env.persistentVolumeClaimsDelete ns name, [APICall.deletePVC ns name 0])
  | "configmap" =>
      (env.configMapsDelete ns name, [APICall.deleteConfigMap ns name 0])
  | "petset" =>
      (env.petSetsDelete ns name, [APICall.deletePetSet ns name 0])
  | _ => (some (KubeError.unsupportedResource kind), [])

/-- `createNamespace` (kubernetes.go:48-63): get the ns; `nil` error
means it exists, return `nil` with no create.  A failing get that is not
"not exist" is returned unchanged with no create.  A "not exist" get is followed
by exactly one create call whose error (possibly `nil`) is returned. -/
def createNamespace (env : KubeEnv) (ns : String) :
    Option KubeError × List APICall :=
  let getCall := APICall.getNamespace ns
  match env.namespacesGet ns with
  | none => (none, [getCall])
  | some e =>
    if !isResourceNotExist e then (some e, [getCall])
    else (env.namespacesCreate ns, [getCall, APICall.createNamespaceCall ns])

/-- A parsed YAML document tree, restricted to the shapes relevant to the
target struct of the decoder: the null document (also the result of empty input),
scalars, and mappings with string keys. -/
inductive Yaml where
  | nullVal
  | str (s : String)
  | map (entries : List (String × Yaml))

/-- `Metadata` inner struct of `KubernetesResource` (kubernetes.go:33-36), with
yaml tags `name` and `namespace`.  The Go field `Namespace` is embedded as `ns`
(`namespace` is a Lean keyword). -/
structure KubernetesMetadata where
  name : String
  ns : String
  deriving DecidableEq, Repr

/-- `KubernetesResource` (kubernetes.go:31-37): the structural subset decoded
from a manifest, with yaml tags `kind` and `metadata`. -/
structure KubernetesResource where
  kind : String
  metadata : KubernetesMetadata
  deriving DecidableEq, Repr

/-- Modelled from the spec: go-yaml unmarshalling of a mapping entry into a
`string` struct field (`yaml.Unmarshal` is library code, not part of this
repository).  An absent key or a null value leaves the field at its zero value
`""` — the decoder performs no presence validation; a scalar is taken as is; a
mapping cannot unmarshal into a string and is a decode error. -/
def yamlFieldString : Option Yaml → Except KubeError String
  | none => Except.ok ""
  | some Yaml.nullVal => Except.ok ""
  | some (Yaml.str s) => Except.ok s
  | some (Yaml.map _) =>
      Except.error (KubeError.otherError "cannot unmarshal mapping into string field")

/-- Modelled from the spec: go-yaml unmarshalling of the `metadata` entry into
the inner `Metadata` struct.  Absent or null leaves the whole struct at zero
values; a scalar cannot unmarshal into a struct; a mapping fills `name` and
`namespace` from its entries, each defaulting to `""` when absent. -/
def unmarshalMetadata : Option Yaml → Except KubeError KubernetesMetadata
  | none => Except.ok ⟨"", ""⟩
  | some Yaml.nullVal => Except.ok ⟨"", ""⟩
  | some (Yaml.str _) =>
      Except.error (KubeError.otherError "cannot unmarshal scalar into struct field")
  | some (Yaml.map entries) =>
    match yamlFieldString (List.lookup "name" entries),
        yamlFieldString (List.lookup "namespace" entries) with
    | Except.ok n, Except.ok m => Except.ok ⟨n, m⟩
    | Except.error e, _ => Except.error e
    | _, Except.error e => Except.error e

/-- Modelled from the spec: go-yaml unmarshalling of a whole document into
`KubernetesResource`.  A null document (empty input) leaves every field at its
zero value without error; a scalar document cannot unmarshal into a struct; a
mapping fills `kind` and `metadata`, each defaulting when absent. -/
def unmarshalKubernetesResource : Yaml → Except KubeError KubernetesResource
  | Yaml.nullVal => Except.ok ⟨"", ⟨"", ""⟩⟩
  | Yaml.str _ =>
      Except.error (KubeError.otherError "cannot unmarshal scalar into struct")
  | Yaml.map entries =>
    match yamlFieldString (List.lookup "kind" entries),
        unmarshalMetadata (List.lookup "metadata" entries) with
    | Except.ok k, Except.ok m => Except.ok ⟨k, m⟩
    | Except.error e, _ => Except.error e
    | _, Except.error e => Except.error e

/-- `loadKubernetesResource` (kubernetes.go:39-46): `yaml.Unmarshal` the bytes
into a fresh `KubernetesResource`; a failing unmarshal propagates its error
unchanged, a successful one yields the filled struct.  The byte-level YAML
syntax is abstracted as the `parseYaml` oracle producing the document tree (or
a syntax error); `unmarshalKubernetesResource` is the struct-filling half. -/
def loadKubernetesResource (parseYaml : String → Except KubeError Yaml)
    (data : String) : Except KubeError KubernetesResource :=
  match parseYaml data with
  | Except.error e => Except.error e
  | Except.ok doc => unmarshalKubernetesResource doc

/-- `appConfig` fields used by `loadKubernetesClient` (kubernetes.go:16-29):
the kubeconfig file path (possibly empty) and the context name (possibly
empty).  The rest of the application configuration is outside this file. -/
structure AppConfig where
  configFile : String
  context : String
  deriving DecidableEq, Repr

/-- The `clientcmd.ClientConfigLoadingRules` field the code sets: the explicit
kubeconfig path (empty means default discovery). -/
structure ClientConfigLoadingRules where
  explicitPath : String
  deriving DecidableEq, Repr

/-- The `clientcmd.ConfigOverrides` field the code sets: the current-context
override (empty means no override). -/
structure ConfigOverrides where
  currentContext : String
  deriving DecidableEq, Repr

/-- The loading rules value built by `loadKubernetesClient`
(kubernetes.go:17-19): `ExplicitPath` is set to `config.configFile`. -/
def mkLoadingRules (config : AppConfig) : ClientConfigLoadingRules :=
  ⟨config.configFile⟩

/-- The overrides value built by `loadKubernetesClient` (kubernetes.go:20-23):
the zero value, with `CurrentContext` set to `config.context` only when that is
nonempty. -/
def mkOverrides (config : AppConfig) : ConfigOverrides :=
  if config.context ≠ "" then ⟨config.context⟩ else ⟨""⟩

/-- `loadKubernetesClient` (kubernetes.go:16-29): build the loading rules and
overrides from the configuration, resolve them to a rest config through
`clientcmd` (abstracted as the `clientConfig` oracle over abstract rest-config
type `R`), propagate its error unchanged, and otherwise hand the rest config to
`kubernetes.NewForConfig` (abstracted as `newForConfig` over abstract client
type `C`). -/
def loadKubernetesClient {R C : Type}
    (clientConfig : ClientConfigLoadingRules → ConfigOverrides → Except KubeError R)
    (newForConfig : R → Except KubeError C) (config : AppConfig) :
    Except KubeError C :=
  match clientConfig (mkLoadingRules config) (mkOverrides config) with
  | Except.error e => Except.error e
  | Except.ok kubeConfig => newForConfig kubeConfig

/-- Modelled from the spec: `clientcmd` loading rules resolve the kubeconfig
location — an explicit nonempty path overrides the default discovery rules,
while an empty explicit path leaves default discovery in effect (`clientcmd` is
client-go library code, not part of this repository; the spec fixes this
precedence). -/
def resolveKubeconfigPath (loader : ClientConfigLoadingRules)
    (defaultPath : String) : String :=
  if loader.explicitPath ≠ "" then loader.explicitPath else defaultPath

/-- Modelled from the spec: `clientcmd` overrides resolve the context — a
nonempty `CurrentContext` override replaces the current-context of the kubeconfig,
while an empty override leaves the current-context in effect. -/
def resolveContext (overrides : ConfigOverrides) (currentContext : String) :
    String :=
  if overrides.currentContext ≠ "" then overrides.currentContext
  else currentContext

/-- The closed set of kind strings recognized by the three dispatch switches. -/
def recognizedKinds : List String :=
  ["deployment", "service", "job", "persistentvolumeclaim", "configmap",
    "petset"]

/-- An error classifies as "not exist" exactly when it is a structured status
error whose code is 404. -/
theorem isResourceNotExist_iff_status404 (e : KubeError) :
    isResourceNotExist e = true ↔ ∃ m, e = KubeError.statusError 404 m := by
  cases e with
  | statusError code msg =>
      simp only [isResourceNotExist, beq_iff_eq, KubeError.statusError.injEq]
      constructor
      · intro h
        exact ⟨msg, h, rfl⟩
      · rintro ⟨m, hm, _⟩
        exact hm
  | otherError msg => simp [isResourceNotExist]
  | unsupportedResource k => simp [isResourceNotExist]

/-- When the delete of every item succeeds, the loop succeeds and issues one delete
per listed item, in list order. -/
theorem deleteEach_ok_of_forall (del : String → Option KubeError)
    (mk : String → APICall) (items : List String)
    (h : ∀ x ∈ items, del x = none) :
    deleteEach del mk items = (none, items.map mk) := by
  induction items with
  | nil => rfl
  | cons x xs ih =>
      have hx : del x = none := h x (List.mem_cons_self x xs)
      have ih2 := ih (fun y hy => h y (List.mem_cons_of_mem x hy))
      simp [deleteEach, hx, ih2]

/-- The first failing delete aborts the loop: the items before it are each
deleted, the failing one is attempted, nothing after it is touched, and its
error is returned unchanged. -/
theorem deleteEach_first_failure (del : String → Option KubeError)
    (mk : String → APICall) (done : List String) (r : String)
    (rest : List String) (e : KubeError)
    (hdone : ∀ x ∈ done, del x = none) (hr : del r = some e) :
    deleteEach del mk (done ++ r :: rest) = (some e, done.map mk ++ [mk r]) := by
  induction done with
  | nil => simp [deleteEach, hr]
  | cons x xs ih =>
      have hx : del x = none := hdone x (List.mem_cons_self x xs)
      have ih2 := ih (fun y hy => hdone y (List.mem_cons_of_mem x hy))
      simp [deleteEach, hx, ih2]

/-- Every call the loop issues is a delete of one of the listed items. -/
theorem deleteEach_trace_mem (del : String → Option KubeError)
    (mk : String → APICall) (items : List String) (c : APICall)
    (h : c ∈ (deleteEach del mk items).2) : ∃ x, x ∈ items ∧ c = mk x := by
  induction items with
  | nil => simp [deleteEach] at h
  | cons x xs ih =>
      simp only [deleteEach] at h
      cases hx : del x with
      | some e =>
          rw [hx] at h
          simp at h
          exact ⟨x, List.mem_cons_self x xs, h⟩
      | none =>
          rw [hx] at h
          simp at h
          rcases h with h | h
          · exact ⟨x, List.mem_cons_self x xs, h⟩
          · rcases ih h with ⟨y, hy, hc⟩
            exact ⟨y, List.mem_cons_of_mem x hy, hc⟩

/-- C10: the result pair of `checkResourceExist` is always consistent — a
`true` boolean comes only with a `nil` error, and a non-`nil` error comes only
with a `false` boolean; the pair `(true, non-nil error)` is never returned. -/
theorem checkResourceExist_result_consistent (env : KubeEnv)
    (kind name ns : String) :
    ((checkResourceExist env kind name ns).1.1 = true →
      (checkResourceExist env kind name ns).1.2 = none) ∧
    (∀ e, (checkResourceExist env kind name ns).1.2 = some e →
      (checkResourceExist env kind name ns).1.1 = false) := by
  unfold checkResourceExist
  cases recognizedGet env kind name ns with
  | none => simp
  | some rc =>
      obtain ⟨err, call⟩ := rc
      cases err with
      | none => simp
      | some e =>
          by_cases h : isResourceNotExist e = true
          · simp [h]
          · simp [h]

/-- C3: for every kind outside the closed recognized set, each of the three
dispatchers returns `UnsupportedResource(kind)` and issues no API call. -/
theorem unsupported_kind_rejected (env : KubeEnv) (kind name ns : String)
    (h : kind ∉ recognizedKinds) :
    checkResourceExist env kind name ns =
      ((false, some (KubeError.unsupportedResource kind)), []) ∧
    createResource env kind ns =
      (some (KubeError.unsupportedResource kind), []) ∧
    destroyResource env kind name ns =
      (some (KubeError.unsupportedResource kind), []) := by
  simp only [recognizedKinds, List.mem_cons, List.not_mem_nil, or_false] at h
  push_neg at h
  obtain ⟨h1, h2, h3, h4, h5, h6⟩ := h
  have hg : recognizedGet env kind name ns = none := by
    unfold recognizedGet
    split <;> simp_all
  refine ⟨?_, ?_, ?_⟩
  · simp [checkResourceExist, hg]
  · unfold createResource
    split <;> simp_all
  · unfold destroyResource
    split <;> simp_all

/-- C1: for every recognized kind, `checkResourceExist` returns `(true, nil)`
when the underlying get succeeds; it returns `(false, nil)` when and only when
the error of the get is a structured status error with code 404; and it returns
`(false, err)` with the error unchanged for every other error. -/
theorem checkResourceExist_classifies (env : KubeEnv) (kind name ns : String)
    (res : Option KubeError) (call : APICall)
    (h : recognizedGet env kind name ns = some (res, call)) :
    (res = none → (checkResourceExist env kind name ns).1 = (true, none)) ∧
    (∀ e, res = some e →
      (((checkResourceExist env kind name ns).1 = (false, none)) ↔
        ∃ m, e = KubeError.statusError 404 m) ∧
      ((∀ m, e ≠ KubeError.statusError 404 m) →
        (checkResourceExist env kind name ns).1 = (false, some e))) := by
  simp only [checkResourceExist, h]
  constructor
  · rintro rfl
    simp
  · rintro e rfl
    by_cases hnf : isResourceNotExist e = true
    · rcases (isResourceNotExist_iff_status404 e).mp hnf with ⟨m, rfl⟩
      constructor
      · simp [isResourceNotExist]
      · intro hno
        exact absurd rfl (hno m)
    · have hne : ¬ ∃ m, e = KubeError.statusError 404 m := fun hex =>
        hnf ((isResourceNotExist_iff_status404 e).mpr hex)
      constructor
      · simp [hnf, hne]
      · intro _
        simp [hnf]

/-- A concrete oracle where every endpoint succeeds: gets, creates and deletes
report no error, the replica-set list returns two items, the pod list returns
one, and selector parsing yields its input. -/
def envOk : KubeEnv :=
  ⟨fun _ => none, fun _ => none,
    fun _ _ => none, fun _ _ => none, fun _ _ => none, fun _ _ => none,
    fun _ _ => none, fun _ _ => none,
    fun _ => none, fun _ => none, fun _ => none, fun _ => none,
    fun _ => none, fun _ => none,
    fun _ _ => none, fun _ _ => none, fun _ _ => none, fun _ _ => none,
    fun _ _ => none, fun _ _ => none, fun _ _ => none, fun _ _ => none,
    fun _ _ => Except.ok ["web-rs1", "web-rs2"],
    fun _ _ => Except.ok ["batch-1-pod"],
    fun s => Except.ok s⟩

/-- A concrete oracle where every get reports a structured 404 status error
and everything else succeeds. -/
def env404 : KubeEnv :=
  ⟨fun _ => some (KubeError.statusError 404 "not found"), fun _ => none,
    fun _ _ => some (KubeError.statusError 404 "not found"),
    fun _ _ => some (KubeError.statusError 404 "not found"),
    fun _ _ => some (KubeError.statusError 404 "not found"),
    fun _ _ => some (KubeError.statusError 404 "not found"),
    fun _ _ => some (KubeError.statusError 404 "not found"),
    fun _ _ => some (KubeError.statusError 404 "not found"),
    fun _ => none, fun _ => none, fun _ => none, fun _ => none,
    fun _ => none, fun _ => none,
    fun _ _ => none, fun _ _ => none, fun _ _ => none, fun _ _ => none,
    fun _ _ => none, fun _ _ => none, fun _ _ => none, fun _ _ => none,
    fun _ _ => Except.ok [], fun _ _ => Except.ok [],
    fun s => Except.ok s⟩

/-- A concrete oracle where deletes succeed but selector parsing always
fails. -/
def envParseFail : KubeEnv :=
  ⟨fun _ => none, fun _ => none,
    fun _ _ => none, fun _ _ => none, fun _ _ => none, fun _ _ => none,
    fun _ _ => none, fun _ _ => none,
    fun _ => none, fun _ => none, fun _ => none, fun _ => none,
    fun _ => none, fun _ => none,
    fun _ _ => none, fun _ _ => none, fun _ _ => none, fun _ _ => none,
    fun _ _ => none, fun _ _ => none, fun _ _ => none, fun _ _ => none,
    fun _ _ => Except.ok [], fun _ _ => Except.ok [],
    fun _ => Except.error (KubeError.otherError "unable to parse requirement")⟩

/-- C10 witness: on a concrete oracle where the get succeeds, the boolean is
`true` and the theorem yields the `nil` error. -/
theorem checkResourceExist_result_consistent_witness :
    (checkResourceExist envOk "service" "api" "prod").1.1 = true ∧
    (checkResourceExist envOk "service" "api" "prod").1.2 = none :=
  ⟨rfl,
    (checkResourceExist_result_consistent envOk "service" "api" "prod").1 rfl⟩

/-- C3 witness: `daemonset` is outside the recognized set and destroy rejects
it with no calls. -/
theorem unsupported_kind_rejected_witness :
    "daemonset" ∉ recognizedKinds ∧
    destroyResource envOk "daemonset" "web" "default" =
      (some (KubeError.unsupportedResource "daemonset"), []) :=
  ⟨by decide,
    (unsupported_kind_rejected envOk "daemonset" "web" "default"
      (by decide)).2.2⟩

/-- C1 witness: on a concrete oracle whose get reports a 404 status error, the
existence check classifies it as `(false, nil)`. -/
theorem checkResourceExist_classifies_witness :
    recognizedGet env404 "service" "api" "prod" =
      some (some (KubeError.statusError 404 "not found"),
        APICall.getService "prod" "api") ∧
    (checkResourceExist env404 "service" "api" "prod").1 = (false, none) :=
  ⟨rfl,
    ((checkResourceExist_classifies env404 "service" "api" "prod"
      (some (KubeError.statusError 404 "not found"))
      (APICall.getService "prod" "api") rfl).2
      (KubeError.statusError 404 "not found") rfl).1.mpr ⟨"not found", rfl⟩⟩

/-- C4: `createNamespace` is an idempotent get-or-create: a successful
existence check returns `nil` with zero create calls; a check failing with a
404 status error is followed by exactly one create call whose result is
returned; a check failing with any other error is propagated unchanged with no
create call; and the trace only ever holds the one get and possibly the one
create — in particular it never deletes a namespace. -/
theorem createNamespace_get_or_create (env : KubeEnv) (ns : String) :
    (env.namespacesGet ns = none →
      createNamespace env ns = (none, [APICall.getNamespace ns])) ∧
    (∀ m, env.namespacesGet ns = some (KubeError.statusError 404 m) →
      createNamespace env ns =
        (env.namespacesCreate ns,
          [APICall.getNamespace ns, APICall.createNamespaceCall ns])) ∧
    (∀ e, env.namespacesGet ns = some e →
      (∀ m, e ≠ KubeError.statusError 404 m) →
      createNamespace env ns = (some e, [APICall.getNamespace ns])) ∧
    (∀ c ∈ (createNamespace env ns).2,
      c = APICall.getNamespace ns ∨ c = APICall.createNamespaceCall ns) := by
  refine ⟨?_, ?_, ?_, ?_⟩
  · intro h
    simp [createNamespace, h]
  · intro m h
    simp [createNamespace, h, isResourceNotExist]
  · intro e h hne
    have hnf : isResourceNotExist e = false := by
      cases hb : isResourceNotExist e
      · rfl
      · rcases (isResourceNotExist_iff_status404 e).mp hb with ⟨m, rfl⟩
        exact absurd rfl (hne m)
    simp [createNamespace, h, hnf]
  · intro c hc
    unfold createNamespace at hc
    cases hg : env.namespacesGet ns with
    | none =>
        rw [hg] at hc
        simp at hc
        exact Or.inl hc
    | some e =>
        rw [hg] at hc
        cases hb : isResourceNotExist e with
        | false =>
            simp [hb] at hc
            exact Or.inl hc
        | true =>
            simp [hb] at hc
            rcases hc with hc | hc
            · exact Or.inl hc
            · exact Or.inr hc

/-- C4 witness: on a concrete oracle reporting 404 for the namespace get, the
function issues the get and then exactly one create. -/
theorem createNamespace_get_or_create_witness :
    env404.namespacesGet "prod" =
      some (KubeError.statusError 404 "not found") ∧
    createNamespace env404 "prod" =
      (none,
        [APICall.getNamespace "prod", APICall.createNamespaceCall "prod"]) :=
  ⟨rfl, (createNamespace_get_or_create env404 "prod").2.1 "not found" rfl⟩

/-- C2: destroying a deployment issues, in order, the deployment delete, one
replica-set list with selector `name=<name>`, then one delete per returned
replica set; destroying a job issues the job delete, one pod list with
selector `job-name=<name>`, then one delete per returned pod.  In both
cascades the first failing step aborts the sequence with its error returned
unchanged: a failing parent delete issues nothing further, a failing list
issues no child delete, and a failing child delete stops the remaining child
deletes; completed steps stay in the trace (no rollback). -/
theorem destroy_cascades_ordered (env : KubeEnv) (name ns : String)
    (hpd : env.labelsParse ("name=" ++ name) = Except.ok ("name=" ++ name))
    (hpj : env.labelsParse ("job-name=" ++ name) =
      Except.ok ("job-name=" ++ name)) :
    (∀ items, env.deploymentsDelete ns name = none →
      env.replicaSetsList ns ("name=" ++ name) = Except.ok items →
      (∀ r ∈ items, env.replicaSetsDelete ns r = none) →
      destroyDeployment env name ns =
        (none, APICall.deleteDeployment ns name 0 ::
          APICall.listReplicaSets ns ("name=" ++ name) ::
          items.map (fun r => APICall.deleteReplicaSet ns r 0))) ∧
    (∀ e, env.deploymentsDelete ns name = some e →
      destroyDeployment env name ns =
        (some e, [APICall.deleteDeployment ns name 0])) ∧
    (∀ e, env.deploymentsDelete ns name = none →
      env.replicaSetsList ns ("name=" ++ name) = Except.error e →
      destroyDeployment env name ns =
        (some e, [APICall.deleteDeployment ns name 0,
          APICall.listReplicaSets ns ("name=" ++ name)])) ∧
    (∀ done r rest e, env.deploymentsDelete ns name = none →
      env.replicaSetsList ns ("name=" ++ name) =
        Except.ok (done ++ r :: rest) →
      (∀ x ∈ done, env.replicaSetsDelete ns x = none) →
      env.replicaSetsDelete ns r = some e →
      destroyDeployment env name ns =
        (some e, APICall.deleteDeployment ns name 0 ::
          APICall.listReplicaSets ns ("name=" ++ name) ::
          (done.map (fun x => APICall.deleteReplicaSet ns x 0) ++
            [APICall.deleteReplicaSet ns r 0]))) ∧
    (∀ items, env.jobsDelete ns name = none →
      env.podsList ns ("job-name=" ++ name) = Except.ok items →
      (∀ p ∈ items, env.podsDelete ns p = none) →
      destroyJob env name ns =
        (none, APICall.deleteJob ns name 0 ::
          APICall.listPods ns ("job-name=" ++ name) ::
          items.map (fun p => APICall.deletePod ns p 0))) ∧
    (∀ e, env.jobsDelete ns name = some e →
      destroyJob env name ns = (some e, [APICall.deleteJob ns name 0])) ∧
    (∀ e, env.jobsDelete ns name = none →
      env.podsList ns ("job-name=" ++ name) = Except.error e →
      destroyJob env name ns =
        (some e, [APICall.deleteJob ns name 0,
          APICall.listPods ns ("job-name=" ++ name)])) ∧
    (∀ done p rest e, env.jobsDelete ns name = none →
      env.podsList ns ("job-name=" ++ name) = Except.ok (done ++ p :: rest) →
      (∀ x ∈ done, env.podsDelete ns x = none) →
      env.podsDelete ns p = some e →
      destroyJob env name ns =
        (some e, APICall.deleteJob ns name 0 ::
          APICall.listPods ns ("job-name=" ++ name) ::
          (done.map (fun x => APICall.deletePod ns x 0) ++
            [APICall.deletePod ns p 0]))) := by
  refine ⟨?_, ?_, ?_, ?_, ?_, ?_, ?_, ?_⟩
  · intro items h1 h2 h3
    simp [destroyDeployment, h1, hpd, h2,
      deleteEach_ok_of_forall (fun n => env.replicaSetsDelete ns n)
        (fun n => APICall.deleteReplicaSet ns n 0) items h3]
  · intro e h1
    simp [destroyDeployment, h1]
  · intro e h1 h2
    simp [destroyDeployment, h1, hpd, h2]
  · intro done r rest e h1 h2 h3 h4
    simp [destroyDeployment, h1, hpd, h2,
      deleteEach_first_failure (fun n => env.replicaSetsDelete ns n)
        (fun n => APICall.deleteReplicaSet ns n 0) done r rest e h3 h4]
  · intro items h1 h2 h3
    simp [destroyJob, h1, hpj, h2,
      deleteEach_ok_of_forall (fun n => env.podsDelete ns n)
        (fun n => APICall.deletePod ns n 0) items h3]
  · intro e h1
    simp [destroyJob, h1]
  · intro e h1 h2
    simp [destroyJob, h1, hpj, h2]
  · intro done p rest e h1 h2 h3 h4
    simp [destroyJob, h1, hpj, h2,
      deleteEach_first_failure (fun n => env.podsDelete ns n)
        (fun n => APICall.deletePod ns n 0) done p rest e h3 h4]

/-- C2 witness: on a concrete oracle listing two replica sets, destroying
deployment `web` issues exactly the parent delete, the list with selector
`name=web`, and the two child deletes, in order. -/
theorem destroy_cascades_ordered_witness :
    envOk.labelsParse "name=web" = Except.ok "name=web" ∧
    destroyDeployment envOk "web" "default" =
      (none, [APICall.deleteDeployment "default" "web" 0,
        APICall.listReplicaSets "default" "name=web",
        APICall.deleteReplicaSet "default" "web-rs1" 0,
        APICall.deleteReplicaSet "default" "web-rs2" 0]) :=
  ⟨rfl,
    (destroy_cascades_ordered envOk "web" "default" rfl rfl).1
      ["web-rs1", "web-rs2"] rfl rfl (fun _ _ => rfl)⟩

/-- C8: in both cascade deletes the selector parse step sits between the
parent delete and the child list: when the parent delete succeeds but parsing
the selector string fails, the parse error is returned after the parent has
already been deleted, with no list call and no child delete issued. -/
theorem destroy_cascade_parse_failure (env : KubeEnv) (name ns : String) :
    (∀ e, env.deploymentsDelete ns name = none →
      env.labelsParse ("name=" ++ name) = Except.error e →
      destroyDeployment env name ns =
        (some e, [APICall.deleteDeployment ns name 0])) ∧
    (∀ e, env.jobsDelete ns name = none →
      env.labelsParse ("job-name=" ++ name) = Except.error e →
      destroyJob env name ns = (some e, [APICall.deleteJob ns name 0])) := by
  constructor
  · intro e h1 h2
    simp [destroyDeployment, h1, h2]
  · intro e h1 h2
    simp [destroyJob, h1, h2]

/-- C8 witness: on a concrete oracle whose selector parsing fails, destroying
deployment `web` returns the parse error with only the parent delete in the
trace. -/
theorem destroy_cascade_parse_failure_witness :
    envParseFail.labelsParse "name=web" =
      Except.error (KubeError.otherError "unable to parse requirement") ∧
    destroyDeployment envParseFail "web" "default" =
      (some (KubeError.otherError "unable to parse requirement"),
        [APICall.deleteDeployment "default" "web" 0]) :=
  ⟨rfl,
    (destroy_cascade_parse_failure envParseFail "web" "default").1
      (KubeError.otherError "unable to parse requirement") rfl rfl⟩

/-- The grace period a call requests, when the call is a delete. -/
def deleteGrace : APICall → Option Nat
  | APICall.deleteDeployment _ _ g => some g
  | APICall.deleteService _ _ g => some g
  | APICall.deleteJob _ _ g => some g
  | APICall.deletePVC _ _ g => some g
  | APICall.deleteConfigMap _ _ g => some g
  | APICall.deletePetSet _ _ g => some g
  | APICall.deleteReplicaSet _ _ g => some g
  | APICall.deletePod _ _ g => some g
  | _ => none

/-- Every call in a deployment cascade trace is the parent delete with zero
grace, the replica-set list, or a replica-set delete with zero grace. -/
theorem destroyDeployment_trace_shape (env : KubeEnv) (name ns : String)
    (c : APICall) (h : c ∈ (destroyDeployment env name ns).2) :
    c = APICall.deleteDeployment ns name 0 ∨
    (∃ sel, c = APICall.listReplicaSets ns sel) ∨
    (∃ r, c = APICall.deleteReplicaSet ns r 0) := by
  cases hd : env.deploymentsDelete ns name with
  | some e =>
      have ht : (destroyDeployment env name ns).2 =
          [APICall.deleteDeployment ns name 0] := by
        simp [destroyDeployment, hd]
      rw [ht] at h
      simp at h
      exact Or.inl h
  | none =>
      cases hp : env.labelsParse ("name=" ++ name) with
      | error e =>
          have ht : (destroyDeployment env name ns).2 =
              [APICall.deleteDeployment ns name 0] := by
            simp [destroyDeployment, hd, hp]
          rw [ht] at h
          simp at h
          exact Or.inl h
      | ok sel =>
          cases hl : env.replicaSetsList ns sel with
          | error e =>
              have ht : (destroyDeployment env name ns).2 =
                  [APICall.deleteDeployment ns name 0,
                    APICall.listReplicaSets ns sel] := by
                simp [destroyDeployment, hd, hp, hl]
              rw [ht] at h
              simp at h
              rcases h with h | h
              · exact Or.inl h
              · exact Or.inr (Or.inl ⟨sel, h⟩)
          | ok items =>
              have ht : (destroyDeployment env name ns).2 =
                  APICall.deleteDeployment ns name 0 ::
                    APICall.listReplicaSets ns sel ::
                    (deleteEach (fun n => env.replicaSetsDelete ns n)
                      (fun n => APICall.deleteReplicaSet ns n 0) items).2 := by
                simp [destroyDeployment, hd, hp, hl]
              rw [ht] at h
              simp at h
              rcases h with h | h | h
              · exact Or.inl h
              · exact Or.inr (Or.inl ⟨sel, h⟩)
              · rcases deleteEach_trace_mem
                    (fun n => env.replicaSetsDelete ns n)
                    (fun n => APICall.deleteReplicaSet ns n 0) items c h with
                  ⟨x, _, hc⟩
                exact Or.inr (Or.inr ⟨x, hc⟩)

/-- Every call in a job cascade trace is the parent delete with zero grace,
the pod list, or a pod delete with zero grace. -/
theorem destroyJob_trace_shape (env : KubeEnv) (name ns : String)
    (c : APICall) (h : c ∈ (destroyJob env name ns).2) :
    c = APICall.deleteJob ns name 0 ∨
    (∃ sel, c = APICall.listPods ns sel) ∨
    (∃ p, c = APICall.deletePod ns p 0) := by
  cases hd : env.jobsDelete ns name with
  | some e =>
      have ht : (destroyJob env name ns).2 = [APICall.deleteJob ns name 0] := by
        simp [destroyJob, hd]
      rw [ht] at h
      simp at h
      exact Or.inl h
  | none =>
      cases hp : env.labelsParse ("job-name=" ++ name) with
      | error e =>
          have ht : (destroyJob env name ns).2 =
              [APICall.deleteJob ns name 0] := by
            simp [destroyJob, hd, hp]
          rw [ht] at h
          simp at h
          exact Or.inl h
      | ok sel =>
          cases hl : env.podsList ns sel with
          | error e =>
              have ht : (destroyJob env name ns).2 =
                  [APICall.deleteJob ns name 0, APICall.listPods ns sel] := by
                simp [destroyJob, hd, hp, hl]
              rw [ht] at h
              simp at h
              rcases h with h | h
              · exact Or.inl h
              · exact Or.inr (Or.inl ⟨sel, h⟩)
          | ok items =>
              have ht : (destroyJob env name ns).2 =
                  APICall.deleteJob ns name 0 ::
                    APICall.listPods ns sel ::
                    (deleteEach (fun n => env.podsDelete ns n)
                      (fun n => APICall.deletePod ns n 0) items).2 := by
                simp [destroyJob, hd, hp, hl]
              rw [ht] at h
              simp at h
              rcases h with h | h | h
              · exact Or.inl h
              · exact Or.inr (Or.inl ⟨sel, h⟩)
              · rcases deleteEach_trace_mem (fun n => env.podsDelete ns n)
                    (fun n => APICall.deletePod ns n 0) items c h with
                  ⟨x, _, hc⟩
                exact Or.inr (Or.inr ⟨x, hc⟩)

/-- C6: every delete issued by `destroyResource` — the single delete of the
four simple kinds and every parent and child delete of the deployment and job
cascades — requests a zero grace period. -/
theorem destroyResource_zero_grace (env : KubeEnv) (kind name ns : String)
    (c : APICall) (h : c ∈ (destroyResource env kind name ns).2) (g : Nat)
    (hg : deleteGrace c = some g) : g = 0 := by
  unfold destroyResource at h
  split at h
  · rcases destroyDeployment_trace_shape env name ns c h with hc | hc | hc
    · subst hc
      simp [deleteGrace] at hg
      omega
    · rcases hc with ⟨sel, hc⟩
      subst hc
      simp [deleteGrace] at hg
    · rcases hc with ⟨r, hc⟩
      subst hc
      simp [deleteGrace] at hg
      omega
  · simp at h
    subst h
    simp [deleteGrace] at hg
    omega
  · rcases destroyJob_trace_shape env name ns c h with hc | hc | hc
    · subst hc
      simp [deleteGrace] at hg
      omega
    · rcases hc with ⟨sel, hc⟩
      subst hc
      simp [deleteGrace] at hg
    · rcases hc with ⟨p, hc⟩
      subst hc
      simp [deleteGrace] at hg
      omega
  · simp at h
    subst h
    simp [deleteGrace] at hg
    omega
  · simp at h
    subst h
    simp [deleteGrace] at hg
    omega
  · simp at h
    subst h
    simp [deleteGrace] at hg
    omega
  · simp at h

/-- C6 witness: a child delete from a concrete deployment cascade trace sits
in the trace, carries grace period 0, and the theorem applies to it. -/
theorem destroyResource_zero_grace_witness :
    (APICall.deleteReplicaSet "default" "web-rs1" 0 ∈
      (destroyResource envOk "deployment" "web" "default").2) ∧ 0 = 0 :=
  ⟨by decide,
    destroyResource_zero_grace envOk "deployment" "web" "default"
      (APICall.deleteReplicaSet "default" "web-rs1" 0) (by decide) 0 rfl⟩

/-- The document tree of the manifest bytes
`kind: service\nmetadata:\n  name: api\n  namespace: prod`. -/
def manifestTreeC5 : Yaml :=
  Yaml.map [("kind", Yaml.str "service"),
    ("metadata", Yaml.map [("name", Yaml.str "api"),
      ("namespace", Yaml.str "prod")])]

/-- C5: decoding manifest bytes whose document carries kind `service`, metadata
name `api` and metadata namespace `prod` yields exactly that descriptor;
decoding bytes that are not well-formed YAML for the expected structure fails
with the decode error propagated unchanged; and decoding a manifest whose
metadata has no `namespace` entry succeeds with the zero value `""` there. -/
theorem loadKubernetesResource_decode
    (parseYaml : String → Except KubeError Yaml) (data : String) :
    (parseYaml data = Except.ok manifestTreeC5 →
      loadKubernetesResource parseYaml data =
        Except.ok ⟨"service", ⟨"api", "prod"⟩⟩) ∧
    (∀ e, parseYaml data = Except.error e →
      loadKubernetesResource parseYaml data = Except.error e) ∧
    (∀ k n, parseYaml data = Except.ok (Yaml.map [("kind", Yaml.str k),
        ("metadata", Yaml.map [("name", Yaml.str n)])]) →
      loadKubernetesResource parseYaml data = Except.ok ⟨k, ⟨n, ""⟩⟩) := by
  refine ⟨?_, ?_, ?_⟩
  · intro h
    simp [loadKubernetesResource, h, manifestTreeC5,
      unmarshalKubernetesResource, unmarshalMetadata, yamlFieldString,
      List.lookup]
  · intro e h
    simp [loadKubernetesResource, h]
  · intro k n h
    simp [loadKubernetesResource, h, unmarshalKubernetesResource,
      unmarshalMetadata, yamlFieldString, List.lookup]

/-- The manifest bytes of C5, and a concrete parse oracle assigning them their
document tree while rejecting everything else as a syntax error. -/
def manifestTextC5 : String :=
  "kind: service\nmetadata:\n  name: api\n  namespace: prod"

/-- A concrete parse oracle: the C5 manifest bytes parse to their tree, any
other input is a YAML syntax error. -/
def parseYamlC5 : String → Except KubeError Yaml := fun data =>
  if data = manifestTextC5 then Except.ok manifestTreeC5
  else Except.error (KubeError.otherError "yaml: could not find expected node")

/-- C5 witness: the concrete manifest bytes decode to the expected descriptor,
and non-YAML bytes fail with the decode error. -/
theorem loadKubernetesResource_decode_witness :
    parseYamlC5 manifestTextC5 = Except.ok manifestTreeC5 ∧
    loadKubernetesResource parseYamlC5 manifestTextC5 =
      Except.ok ⟨"service", ⟨"api", "prod"⟩⟩ ∧
    loadKubernetesResource parseYamlC5 ": not yaml" =
      Except.error (KubeError.otherError
        "yaml: could not find expected node") :=
  ⟨by simp [parseYamlC5],
    (loadKubernetesResource_decode parseYamlC5 manifestTextC5).1
      (by simp [parseYamlC5]),
    (loadKubernetesResource_decode parseYamlC5 ": not yaml").2.1
      (KubeError.otherError "yaml: could not find expected node")
      (by simp [parseYamlC5, manifestTextC5])⟩

/-- C9: the decoder performs no presence validation: well-formed documents
omitting `kind`, `metadata.name`, the whole `metadata` block, or everything
(the null document of empty input) decode without error to descriptors whose
missing fields are the empty string. -/
theorem loadKubernetesResource_no_presence_validation
    (parseYaml : String → Except KubeError Yaml) (data : String) :
    (∀ n m, parseYaml data = Except.ok (Yaml.map [("metadata",
        Yaml.map [("name", Yaml.str n), ("namespace", Yaml.str m)])]) →
      loadKubernetesResource parseYaml data = Except.ok ⟨"", ⟨n, m⟩⟩) ∧
    (∀ k m, parseYaml data = Except.ok (Yaml.map [("kind", Yaml.str k),
        ("metadata", Yaml.map [("namespace", Yaml.str m)])]) →
      loadKubernetesResource parseYaml data = Except.ok ⟨k, ⟨"", m⟩⟩) ∧
    (∀ k, parseYaml data = Except.ok (Yaml.map [("kind", Yaml.str k)]) →
      loadKubernetesResource parseYaml data = Except.ok ⟨k, ⟨"", ""⟩⟩) ∧
    (parseYaml data = Except.ok Yaml.nullVal →
      loadKubernetesResource parseYaml data = Except.ok ⟨"", ⟨"", ""⟩⟩) := by
  refine ⟨?_, ?_, ?_, ?_⟩
  · intro n m h
    simp [loadKubernetesResource, h, unmarshalKubernetesResource,
      unmarshalMetadata, yamlFieldString, List.lookup]
  · intro k m h
    simp [loadKubernetesResource, h, unmarshalKubernetesResource,
      unmarshalMetadata, yamlFieldString, List.lookup]
  · intro k h
    simp [loadKubernetesResource, h, unmarshalKubernetesResource,
      unmarshalMetadata, yamlFieldString, List.lookup]
  · intro h
    simp [loadKubernetesResource, h, unmarshalKubernetesResource]

/-- A concrete parse oracle where the empty input parses to the null document
and a kind-only manifest parses to a one-entry mapping. -/
def parseYamlSparse : String → Except KubeError Yaml := fun data =>
  if data = "" then Except.ok Yaml.nullVal
  else if data = "kind: service" then
    Except.ok (Yaml.map [("kind", Yaml.str "service")])
  else Except.error (KubeError.otherError "yaml: unexpected input")

/-- C9 witness: empty input and a metadata-less manifest both decode without
error, with every missing field at the empty string. -/
theorem loadKubernetesResource_no_presence_validation_witness :
    parseYamlSparse "" = Except.ok Yaml.nullVal ∧
    loadKubernetesResource parseYamlSparse "" = Except.ok ⟨"", ⟨"", ""⟩⟩ ∧
    loadKubernetesResource parseYamlSparse "kind: service" =
      Except.ok ⟨"service", ⟨"", ""⟩⟩ :=
  ⟨rfl,
    (loadKubernetesResource_no_presence_validation parseYamlSparse "").2.2.2
      rfl,
    (loadKubernetesResource_no_presence_validation parseYamlSparse
      "kind: service").2.2.1 "service" (by simp [parseYamlSparse])⟩

/-- C7: precedence in the client loader: a nonempty explicit kubeconfig path
overrides default discovery while an empty path leaves default discovery in
effect; a nonempty context overrides the current-context of the kubeconfig while an
empty context leaves the current-context in effect; and the pipeline either
fails with the configuration error unchanged or hands the resolved rest config
to the client constructor. -/
theorem loadKubernetesClient_precedence (config : AppConfig)
    (defaultPath currentCtx : String) :
    (config.configFile ≠ "" →
      resolveKubeconfigPath (mkLoadingRules config) defaultPath =
        config.configFile) ∧
    (config.configFile = "" →
      resolveKubeconfigPath (mkLoadingRules config) defaultPath =
        defaultPath) ∧
    (config.context ≠ "" →
      resolveContext (mkOverrides config) currentCtx = config.context) ∧
    (config.context = "" →
      resolveContext (mkOverrides config) currentCtx = currentCtx) ∧
    (∀ (R C : Type)
        (cc : ClientConfigLoadingRules → ConfigOverrides →
          Except KubeError R)
        (nfc : R → Except KubeError C) (e : KubeError),
      cc (mkLoadingRules config) (mkOverrides config) = Except.error e →
      loadKubernetesClient cc nfc config = Except.error e) ∧
    (∀ (R C : Type)
        (cc : ClientConfigLoadingRules → ConfigOverrides →
          Except KubeError R)
        (nfc : R → Except KubeError C) (r : R),
      cc (mkLoadingRules config) (mkOverrides config) = Except.ok r →
      loadKubernetesClient cc nfc config = nfc r) := by
  refine ⟨?_, ?_, ?_, ?_, ?_, ?_⟩
  · intro h
    simp [resolveKubeconfigPath, mkLoadingRules, h]
  · intro h
    simp [resolveKubeconfigPath, mkLoadingRules, h]
  · intro h
    simp [resolveContext, mkOverrides, h]
  · intro h
    simp [resolveContext, mkOverrides, h]
  · intro R C cc nfc e h
    simp [loadKubernetesClient, h]
  · intro R C cc nfc r h
    simp [loadKubernetesClient, h]

/-- C7 witness: with an explicit path and context, the resolved path and
context are exactly those; the pipeline hands the loader and overrides built
from the configuration to the resolution step. -/
theorem loadKubernetesClient_precedence_witness :
    ("/tmp/kubeconfig" : String) ≠ "" ∧
    resolveKubeconfigPath (mkLoadingRules ⟨"/tmp/kubeconfig", "staging"⟩)
      "/root/.kube/config" = "/tmp/kubeconfig" ∧
    resolveContext (mkOverrides ⟨"/tmp/kubeconfig", "staging"⟩) "dev" =
      "staging" ∧
    loadKubernetesClient (fun l o => Except.ok (l, o))
      (fun rc => Except.ok rc) ⟨"/tmp/kubeconfig", "staging"⟩ =
      Except.ok (⟨"/tmp/kubeconfig"⟩, ⟨"staging"⟩) := by
  have h := loadKubernetesClient_precedence ⟨"/tmp/kubeconfig", "staging"⟩
    "/root/.kube/config" "dev"
  refine ⟨by decide, h.1 (by decide), h.2.2.1 (by decide), ?_⟩
  have h2 := h.2.2.2.2.2 (ClientConfigLoadingRules × ConfigOverrides)
    (ClientConfigLoadingRules × ConfigOverrides)
    (fun l o => Except.ok (l, o)) (fun rc => Except.ok rc)
    (mkLoadingRules ⟨"/tmp/kubeconfig", "staging"⟩,
      mkOverrides ⟨"/tmp/kubeconfig", "staging"⟩) rfl
  rw [h2]
  simp [mkLoadingRules, mkOverrides]
